import Mathlib

/-!
Shallow embedding of libagilispiezo-cpp: the command-protocol engine
(`src/agilispiezo.cpp`, class `AgilisPiezo`) and the serial transport
(`src/serial.cpp`, class `Serial`).

Transport I/O is modelled by an explicit environment: `Env` carries the
outcome of the frame write (`sendOk`, i.e. whether `__SendCommand`'s
length check passed) and the reply buffer that `__GetReturnValue` left in
the local `buf` (empty when the read failed, since the callers ignore
`__GetReturnValue`'s boolean and `buf` starts empty).  Every operation
returns, besides its outputs, the list of frames it handed to
`Serial::Send`, so that "no bytes were written" is observable.
Out-parameters (`int*`, `bool*`) are threaded explicitly: each operation
takes the value the caller's variable held before the call and returns
the value it holds after.
-/

namespace AgilisPiezo

/-- First index at which `needle` occurs in `hay` (list form of
`std::string::find`); `none` plays the role of `std::string::npos`. -/
def findSub (needle : List Char) : List Char → Option Nat
  | [] => if needle.isPrefixOf ([] : List Char) then some 0 else none
  | c :: t =>
    if needle.isPrefixOf (c :: t) then some 0
    else (findSub needle t).map (fun i => i + 1)

/-- `std::string::find` on strings. -/
def strFind (hay needle : String) : Option Nat :=
  findSub needle.toList hay.toList

/-- C `isspace` in the default locale, as used by `std::stoi`. -/
def isSpaceC (c : Char) : Bool :=
  c = ' ' || c = '\t' || c = '\n' || c = '\x0b' || c = '\x0c' || c = '\r'

/-- Model of `std::stoi` (base 10): skip leading whitespace, read an
optional sign and the longest run of decimal digits, ignore what follows.
No digits (`std::invalid_argument`) or a value outside the range of
`int` (`std::out_of_range`) are the throwing cases, modelled as `none`. -/
def stoi (s : String) : Option Int :=
  let l := s.toList.dropWhile isSpaceC
  let signAndRest : Bool × List Char :=
    match l with
    | '-' :: t => (true, t)
    | '+' :: t => (false, t)
    | t => (false, t)
  let ds := signAndRest.2.takeWhile (fun c => c.isDigit)
  if ds.isEmpty then none
  else
    let n : Nat := ds.foldl (fun a c => a * 10 + (c.toNat - 48)) 0
    let v : Int := if signAndRest.1 then -(n : Int) else (n : Int)
    if v < -2147483648 ∨ 2147483647 < v then none else some v

/-- Embedding of `AgilisPiezo::__GetIntegerFromReturnValue`: locate the echoed command
prefix in `buf`, locate the first `"\r\n"` in `buf`, take the substring
between them and convert it with `std::stoi`.  The count handed to
`substr` is computed in `size_t`, so when the delimiter sits before the
end of the prefix the subtraction wraps around and `substr` clamps it to
the remainder of the string. -/
def GetIntegerFromReturnValue (buf command : String) : Option Int :=
  match strFind buf command with
  | none => none
  | some b =>
    match strFind buf "\r\n" with
    | none => none
    | some e =>
      let start := b + command.length
      let count := if start ≤ e then e - start else buf.length - start
      stoi ((buf.drop start).take count)

/-- Outcome of one `__SendCommand`/`__GetReturnValue` exchange with the
transport: whether the write of the whole frame succeeded, and the
contents of the reply buffer afterwards (empty if nothing arrived). -/
structure Env where
  sendOk : Bool
  reply : String
  deriving DecidableEq

/-- Result of an engine operation: the returned boolean and the frames
passed to `Serial::Send` during the call. -/
structure CmdResult where
  ret : Bool
  sent : List String
  deriving DecidableEq

/-- Embedding of `AgilisPiezo::__SendCommand`: sends `command + "\r\n"` and returns
whether the reported written size matched the frame length. -/
def SendCommand (command : String) (env : Env) : CmdResult :=
  { ret := env.sendOk, sent := [command ++ "\r\n"] }

/-- Embedding of the per-axis command-string table
`std::string DL[3] = { "0DL", "1DL", "2DL" }` from
`include/libagilispiezo/agilispiezo.h`, as a lookup on the axis index.
The class only reads these arrays at index 1 or 2, after the axis
validation; the tables below (`JA` to `ZP`) follow the header the same
way. -/
def DL (axis : Int) : String :=
  if axis = 0 then "0DL" else if axis = 1 then "1DL" else "2DL"

/-- Embedding of `std::string JA[3] = { "0JA", "1JA", "2JA" }`. -/
def JA (axis : Int) : String :=
  if axis = 0 then "0JA" else if axis = 1 then "1JA" else "2JA"

/-- Embedding of `std::string MA[3] = { "0MA", "1MA", "2MA" }`. -/
def MA (axis : Int) : String :=
  if axis = 0 then "0MA" else if axis = 1 then "1MA" else "2MA"

/-- Embedding of `std::string MV[3] = { "0MV", "1MV", "2MV" }`. -/
def MV (axis : Int) : String :=
  if axis = 0 then "0MV" else if axis = 1 then "1MV" else "2MV"

/-- Embedding of `std::string PA[3] = { "0PA", "1PA", "2PA" }`. -/
def PA (axis : Int) : String :=
  if axis = 0 then "0PA" else if axis = 1 then "1PA" else "2PA"

/-- Embedding of `std::string PH = "PH"` from the same header. -/
def PH : String := "PH"

/-- Embedding of `std::string PR[3] = { "0PR", "1PR", "2PR" }`. -/
def PR (axis : Int) : String :=
  if axis = 0 then "0PR" else if axis = 1 then "1PR" else "2PR"

/-- Embedding of `std::string ST[3] = { "0ST", "1ST", "2ST" }`. -/
def ST (axis : Int) : String :=
  if axis = 0 then "0ST" else if axis = 1 then "1ST" else "2ST"

/-- Embedding of `std::string SU[3] = { "0SU", "1SU", "2SU" }`. -/
def SU (axis : Int) : String :=
  if axis = 0 then "0SU" else if axis = 1 then "1SU" else "2SU"

/-- Embedding of `std::string TP[3] = { "0TP", "1TP", "2TP" }`. -/
def TP (axis : Int) : String :=
  if axis = 0 then "0TP" else if axis = 1 then "1TP" else "2TP"

/-- Embedding of `std::string TS[3] = { "0TS", "1TS", "2TS" }`. -/
def TS (axis : Int) : String :=
  if axis = 0 then "0TS" else if axis = 1 then "1TS" else "2TS"

/-- Embedding of `std::string ZP[3] = { "0ZP", "1ZP", "2ZP" }`. -/
def ZP (axis : Int) : String :=
  if axis = 0 then "0ZP" else if axis = 1 then "1ZP" else "2ZP"

/-- Embedding of `AgilisPiezo::SetStepDelay`. -/
def SetStepDelay (axis delay : Int) (env : Env) : CmdResult :=
  if axis ≠ 1 ∧ axis ≠ 2 then { ret := false, sent := [] }
  else SendCommand (DL axis ++ toString delay) env

/-- Embedding of `AgilisPiezo::GetStepDelay`; the second component is the value of the
caller's `*out_delay` after the call (`outInit` before it). -/
def GetStepDelay (axis : Int) (env : Env) (outInit : Int) : CmdResult × Int :=
  if axis ≠ 1 ∧ axis ≠ 2 then ({ ret := false, sent := [] }, outInit)
  else
    (SendCommand (DL axis ++ "?") env,
     (GetIntegerFromReturnValue env.reply (DL axis)).getD outInit)

/-- Embedding of `AgilisPiezo::StartJogMotion`: a false sign flag negates the speed
before formatting. -/
def StartJogMotion (axis : Int) (sign : Bool) (jog_speed : Int) (env : Env) :
    CmdResult :=
  if axis ≠ 1 ∧ axis ≠ 2 then { ret := false, sent := [] }
  else SendCommand (JA axis ++ toString (if sign then jog_speed else -jog_speed)) env

/-- Embedding of `AgilisPiezo::GetJogMode`; components are the returned boolean with
the sent frames, then `*out_sign` and `*out_jog_speed` after the call.
The sign normalisation runs on whatever `*out_jog_speed` holds, whether
or not the parse wrote it. -/
def GetJogMode (axis : Int) (env : Env) (signInit : Bool) (speedInit : Int) :
    CmdResult × Bool × Int :=
  if axis ≠ 1 ∧ axis ≠ 2 then ({ ret := false, sent := [] }, signInit, speedInit)
  else
    let r := SendCommand (JA axis ++ "?") env
    let speed := (GetIntegerFromReturnValue env.reply (JA axis)).getD speedInit
    if speed < 0 then (r, false, -speed) else (r, true, speed)

/-- Embedding of `AgilisPiezo::MeasureCurrentPosition`; the second component models
the value the returned `std::future<int>` eventually yields (`none` when
the axis check failed and no future was installed).  Inside the deferred
task `v` starts at 0 and is overwritten only by a successful parse. -/
def MeasureCurrentPosition (axis : Int) (env : Env) : CmdResult × Option Int :=
  if axis ≠ 1 ∧ axis ≠ 2 then ({ ret := false, sent := [] }, none)
  else
    (SendCommand (MA axis) env,
     some ((GetIntegerFromReturnValue env.reply (MA axis)).getD 0))

/-- Embedding of `AgilisPiezo::MoveToLimit`: a false sign flag prepends a minus sign
to the formatted speed. -/
def MoveToLimit (axis : Int) (sign : Bool) (jog_speed : Int) (env : Env) :
    CmdResult :=
  if axis ≠ 1 ∧ axis ≠ 2 then { ret := false, sent := [] }
  else SendCommand (MV axis ++ (if sign then "" else "-") ++ toString jog_speed) env

/-- Embedding of `AgilisPiezo::AbsoluteMove`. -/
def AbsoluteMove (axis position : Int) (env : Env) : CmdResult :=
  if axis ≠ 1 ∧ axis ≠ 2 then { ret := false, sent := [] }
  else SendCommand (PA axis ++ toString position) env

/-- Embedding of `AgilisPiezo::TellLimitStatus`.  The local `int v` is declared
without an initialiser; `vInit` stands for the indeterminate value it
holds when the parse does not write it.  The `switch` has no `default`
case, so outside 0–3 neither out-parameter is touched. -/
def TellLimitStatus (env : Env) (vInit : Int) (a1Init a2Init : Bool) :
    CmdResult × Bool × Bool :=
  let r := SendCommand PH env
  let v := (GetIntegerFromReturnValue env.reply PH).getD vInit
  if v = 0 then (r, false, false)
  else if v = 1 then (r, true, false)
  else if v = 2 then (r, false, true)
  else if v = 3 then (r, true, true)
  else (r, a1Init, a2Init)

/-- Embedding of `AgilisPiezo::RelativeMove`: a false sign flag prepends a minus sign
to the formatted step count. -/
def RelativeMove (axis : Int) (sign : Bool) (steps : Int) (env : Env) :
    CmdResult :=
  if axis ≠ 1 ∧ axis ≠ 2 then { ret := false, sent := [] }
  else SendCommand (PR axis ++ (if sign then "" else "-") ++ toString steps) env

/-- Embedding of `AgilisPiezo::StopMotion`. -/
def StopMotion (axis : Int) (env : Env) : CmdResult :=
  if axis ≠ 1 ∧ axis ≠ 2 then { ret := false, sent := [] }
  else SendCommand (ST axis) env

/-- Embedding of `AgilisPiezo::SetStepAmplitude`: after the axis check, rejects
`amplitude == 0 || amplitude < -50 || amplitude > 50` before any I/O. -/
def SetStepAmplitude (axis : Int) (sign : Bool) (amplitude : Int) (env : Env) :
    CmdResult :=
  if axis ≠ 1 ∧ axis ≠ 2 then { ret := false, sent := [] }
  else if amplitude = 0 ∨ amplitude < -50 ∨ 50 < amplitude then
    { ret := false, sent := [] }
  else SendCommand (SU axis ++ (if sign then "" else "-") ++ toString amplitude) env

/-- Embedding of `AgilisPiezo::GetStepAmplitudeSetting`: the frame suffix is `?` or
`-?` depending on the sign flag; a negative parsed value is replaced by
its negation (again acting on whatever the out-variable holds). -/
def GetStepAmplitudeSetting (axis : Int) (sign : Bool) (env : Env)
    (outInit : Int) : CmdResult × Int :=
  if axis ≠ 1 ∧ axis ≠ 2 then ({ ret := false, sent := [] }, outInit)
  else
    let r := SendCommand (SU axis ++ (if sign then "?" else "-?")) env
    let a := (GetIntegerFromReturnValue env.reply (SU axis)).getD outInit
    (r, if a < 0 then -a else a)

/-- Embedding of `AgilisPiezo::GetErrorOfPreviousCommand`. -/
def GetErrorOfPreviousCommand (env : Env) (outInit : Int) : CmdResult × Int :=
  (SendCommand "TE" env,
   (GetIntegerFromReturnValue env.reply "TE").getD outInit)

/-- Embedding of `AgilisPiezo::TellNumberOfSteps`. -/
def TellNumberOfSteps (axis : Int) (env : Env) (outInit : Int) :
    CmdResult × Int :=
  if axis ≠ 1 ∧ axis ≠ 2 then ({ ret := false, sent := [] }, outInit)
  else
    (SendCommand (TP axis) env,
     (GetIntegerFromReturnValue env.reply (TP axis)).getD outInit)

/-- Embedding of `AgilisPiezo::GetAxisStatus`. -/
def GetAxisStatus (axis : Int) (env : Env) (outInit : Int) :
    CmdResult × Int :=
  if axis ≠ 1 ∧ axis ≠ 2 then ({ ret := false, sent := [] }, outInit)
  else
    (SendCommand (TS axis) env,
     (GetIntegerFromReturnValue env.reply (TS axis)).getD outInit)

/-- Embedding of `AgilisPiezo::ZeroPosition`. -/
def ZeroPosition (axis : Int) (env : Env) : CmdResult :=
  if axis ≠ 1 ∧ axis ≠ 2 then { ret := false, sent := [] }
  else SendCommand (ZP axis) env

/-- Embedding of `AgilisPiezo::GetChannel`. -/
def GetChannel (env : Env) (outInit : Int) : CmdResult × Int :=
  (SendCommand "CC?" env,
   (GetIntegerFromReturnValue env.reply "CC").getD outInit)

end AgilisPiezo

namespace Serial

/-- Connection state of `Serial`: whether `port_` holds an open port. -/
structure SerialState where
  port : Bool
  deriving DecidableEq

/-- Outcome of the asynchronous `asio::read_until` raced against the
timeout inside `Serial::ListenUntil`. -/
inductive ReadOutcome where
  | timeout
  | readError
  | received (data : String)
  deriving DecidableEq

/-- Embedding of `Serial::ListenUntil`: fails with the out-string untouched when the
port is closed, when the deadline fires first (the pending read is then
cancelled), or when the read itself failed; only a completed read
assigns `*read`. -/
def ListenUntil (portOpen : Bool) (outcome : ReadOutcome)
    (delimiter : String) (timeout_ms : Int) (readInit : String) :
    Bool × String :=
  if ¬portOpen then (false, readInit)
  else
    match outcome with
    | ReadOutcome.timeout => (false, readInit)
    | ReadOutcome.readError => (false, readInit)
    | ReadOutcome.received data => (true, data)

/-- Embedding of `Serial::Disconnect`: cancels and closes the port when one is open,
does nothing otherwise; it never reports failure. -/
def Disconnect (s : SerialState) : SerialState :=
  if s.port then { port := false } else s

/-- Embedding of `Serial::Connect`.  `openOk` is whether opening and configuring the
port succeeded (the `std::system_error` catch), `listenOutcome` the fate
of the handshake read.  With an empty `handshake_expect` the handshake
is skipped; otherwise the probe is sent and the expected delimiter must
arrive, else the port is closed again and failure is reported. -/
def Connect (s : SerialState) (openOk : Bool)
    (handshake_timeout_ms : Int) (handshake_expect : String)
    (listenOutcome : ReadOutcome) : SerialState × Bool :=
  if ¬openOk then (s, false)
  else
    let s1 : SerialState := { port := true }
    if handshake_expect.isEmpty then (s1, true)
    else if (ListenUntil s1.port listenOutcome handshake_expect
        handshake_timeout_ms "").1 then (s1, true)
    else (Disconnect s1, false)

end Serial

/-!
Theorems settling the claims.  Each claim's theorem mentions the
embedded operations; witnesses instantiate the theorems at concrete
inputs and evaluate the definitions there.
-/

/-- C1, counterexample.  With a successful frame write and an empty
reply buffer the echoed `1DL` prefix cannot be found, so the parse
fails, yet `GetStepDelay` returns `true` (its result is the send
result, not the parse result); the out-parameter keeps its prior
value 7.  This refutes "the operation returns failure" on a parse
failure. -/
theorem getStepDelay_parse_failure_returns_true :
    AgilisPiezo.GetIntegerFromReturnValue "" (AgilisPiezo.DL 1) = none ∧
    (AgilisPiezo.GetStepDelay 1 ⟨true, ""⟩ 7).1.ret = true ∧
    (AgilisPiezo.GetStepDelay 1 ⟨true, ""⟩ 7).2 = 7 := by
  decide

/-- C1, amended.  For a valid axis, every reply-parsing query returns
exactly the send result, independent of whether the reply parsed; the
integer out-parameter is left at its prior value when the conversion
fails (while `GetJogMode` additionally sign-normalises whatever its
speed variable holds). -/
theorem query_ret_is_send_result (axis : Int) (h : axis = 1 ∨ axis = 2)
    (env : AgilisPiezo.Env) (outInit : Int) (signInit : Bool) :
    ((AgilisPiezo.GetStepDelay axis env outInit).1.ret = env.sendOk ∧
      (AgilisPiezo.GetIntegerFromReturnValue env.reply (AgilisPiezo.DL axis) = none →
        (AgilisPiezo.GetStepDelay axis env outInit).2 = outInit)) ∧
    ((AgilisPiezo.GetJogMode axis env signInit outInit).1.ret = env.sendOk ∧
      (AgilisPiezo.GetIntegerFromReturnValue env.reply (AgilisPiezo.JA axis) = none →
        (AgilisPiezo.GetJogMode axis env signInit outInit).2.2 =
          if outInit < 0 then -outInit else outInit)) ∧
    ((AgilisPiezo.TellNumberOfSteps axis env outInit).1.ret = env.sendOk ∧
      (AgilisPiezo.GetIntegerFromReturnValue env.reply (AgilisPiezo.TP axis) = none →
        (AgilisPiezo.TellNumberOfSteps axis env outInit).2 = outInit)) ∧
    ((AgilisPiezo.GetAxisStatus axis env outInit).1.ret = env.sendOk ∧
      (AgilisPiezo.GetIntegerFromReturnValue env.reply (AgilisPiezo.TS axis) = none →
        (AgilisPiezo.GetAxisStatus axis env outInit).2 = outInit)) ∧
    ((AgilisPiezo.GetChannel env outInit).1.ret = env.sendOk ∧
      (AgilisPiezo.GetIntegerFromReturnValue env.reply "CC" = none →
        (AgilisPiezo.GetChannel env outInit).2 = outInit)) ∧
    ((AgilisPiezo.GetErrorOfPreviousCommand env outInit).1.ret = env.sendOk ∧
      (AgilisPiezo.GetIntegerFromReturnValue env.reply "TE" = none →
        (AgilisPiezo.GetErrorOfPreviousCommand env outInit).2 = outInit)) := by
  have hax : ¬(axis ≠ 1 ∧ axis ≠ 2) := by
    rcases h with h | h <;> simp [h]
  refine ⟨⟨?_, ?_⟩, ⟨?_, ?_⟩, ⟨?_, ?_⟩, ⟨?_, ?_⟩, ⟨?_, ?_⟩, ⟨?_, ?_⟩⟩ <;>
    simp only [AgilisPiezo.GetStepDelay, AgilisPiezo.GetJogMode,
      AgilisPiezo.TellNumberOfSteps, AgilisPiezo.GetAxisStatus,
      AgilisPiezo.GetChannel, AgilisPiezo.GetErrorOfPreviousCommand,
      AgilisPiezo.SendCommand, if_neg hax]
  all_goals first
    | rfl
    | (intro hp; simp [hp]; done)
    | (split <;> rfl)
    | (intro hp; simp only [hp, Option.getD_none]; split <;> simp_all)

/-- C1, witness for the amended theorem at axis 1, a write that
succeeded and an empty (unparseable) reply. -/
theorem query_ret_is_send_result_witness :
    (AgilisPiezo.GetStepDelay 1 ⟨true, ""⟩ 7).1.ret = (⟨true, ""⟩ : AgilisPiezo.Env).sendOk ∧
    (AgilisPiezo.GetIntegerFromReturnValue (⟨true, ""⟩ : AgilisPiezo.Env).reply (AgilisPiezo.DL 1) = none →
      (AgilisPiezo.GetStepDelay 1 ⟨true, ""⟩ 7).2 = 7) :=
  (query_ret_is_send_result 1 (Or.inl rfl) ⟨true, ""⟩ 7 true).1

/-- C2.  For any axis other than 1 and 2, every axis-addressed
operation returns `false` and hands no frame to the transport. -/
theorem axis_validation_no_io (axis : Int) (h1 : axis ≠ 1) (h2 : axis ≠ 2)
    (sign signInit : Bool) (n outInit : Int) (env : AgilisPiezo.Env) :
    AgilisPiezo.SetStepDelay axis n env = ⟨false, []⟩ ∧
    AgilisPiezo.GetStepDelay axis env outInit = (⟨false, []⟩, outInit) ∧
    AgilisPiezo.StartJogMotion axis sign n env = ⟨false, []⟩ ∧
    AgilisPiezo.GetJogMode axis env signInit outInit = (⟨false, []⟩, signInit, outInit) ∧
    AgilisPiezo.MeasureCurrentPosition axis env = (⟨false, []⟩, none) ∧
    AgilisPiezo.MoveToLimit axis sign n env = ⟨false, []⟩ ∧
    AgilisPiezo.AbsoluteMove axis n env = ⟨false, []⟩ ∧
    AgilisPiezo.RelativeMove axis sign n env = ⟨false, []⟩ ∧
    AgilisPiezo.StopMotion axis env = ⟨false, []⟩ ∧
    AgilisPiezo.SetStepAmplitude axis sign n env = ⟨false, []⟩ ∧
    AgilisPiezo.GetStepAmplitudeSetting axis sign env outInit = (⟨false, []⟩, outInit) ∧
    AgilisPiezo.TellNumberOfSteps axis env outInit = (⟨false, []⟩, outInit) ∧
    AgilisPiezo.GetAxisStatus axis env outInit = (⟨false, []⟩, outInit) ∧
    AgilisPiezo.ZeroPosition axis env = ⟨false, []⟩ := by
  refine ⟨?_, ?_, ?_, ?_, ?_, ?_, ?_, ?_, ?_, ?_, ?_, ?_, ?_, ?_⟩ <;>
    simp only [AgilisPiezo.SetStepDelay, AgilisPiezo.GetStepDelay,
      AgilisPiezo.StartJogMotion, AgilisPiezo.GetJogMode,
      AgilisPiezo.MeasureCurrentPosition, AgilisPiezo.MoveToLimit,
      AgilisPiezo.AbsoluteMove, AgilisPiezo.RelativeMove,
      AgilisPiezo.StopMotion, AgilisPiezo.SetStepAmplitude,
      AgilisPiezo.GetStepAmplitudeSetting, AgilisPiezo.TellNumberOfSteps,
      AgilisPiezo.GetAxisStatus, AgilisPiezo.ZeroPosition,
      if_pos (And.intro h1 h2)]

/-- C2, witness at axis 3. -/
theorem axis_validation_no_io_witness :
    AgilisPiezo.SetStepDelay 3 5 ⟨true, "x"⟩ = ⟨false, []⟩ :=
  (axis_validation_no_io 3 (by decide) (by decide) true true 5 7 ⟨true, "x"⟩).1

/-- C3.  Sign-encoding round-trips: with the sign flag false and 10
steps, `RelativeMove` builds the same frame as with the flag true and
the literal -10; and when `GetJogMode` parses a negative value it
recovers sign flag false together with the absolute value. -/
theorem sign_encoding_roundtrip (axis : Int) (h : axis = 1 ∨ axis = 2)
    (env : AgilisPiezo.Env) (signInit : Bool) (speedInit v : Int)
    (hp : AgilisPiezo.GetIntegerFromReturnValue env.reply (AgilisPiezo.JA axis) = some v)
    (hv : v < 0) :
    AgilisPiezo.RelativeMove axis false 10 env = AgilisPiezo.RelativeMove axis true (-10) env ∧
    (AgilisPiezo.GetJogMode axis env signInit speedInit).2 = (false, |v|) := by
  have hax : ¬(axis ≠ 1 ∧ axis ≠ 2) := by rcases h with h | h <;> simp [h]
  constructor
  · have key : ∀ p : String,
        p ++ (if (false : Bool) then "" else "-") ++ toString (10 : Int) =
          p ++ (if (true : Bool) then "" else "-") ++ toString (-10 : Int) := by
      intro p
      show p ++ "-" ++ "10" = p ++ "" ++ "-10"
      rw [String.append_assoc, String.append_assoc]
      rfl
    simp only [AgilisPiezo.RelativeMove, if_neg hax, key]
  · simp only [AgilisPiezo.GetJogMode, if_neg hax, hp, Option.getD_some, if_pos hv]
    rw [abs_of_neg hv]

/-- C3, witness: a reply carrying `1JA-5` decodes to sign false and
magnitude 5, after a frame-equality instance at axis 1. -/
theorem sign_encoding_roundtrip_witness :
    (AgilisPiezo.GetJogMode 1 ⟨true, "1JA-5\r\n"⟩ true 0).2 = (false, |(-5 : Int)|) :=
  (sign_encoding_roundtrip 1 (Or.inl rfl) ⟨true, "1JA-5\r\n"⟩ true 0 (-5)
    (by decide) (by decide)).2

/-- C5.  A reply parsing to 0, 1, 2 or 3 makes `TellLimitStatus` set the
two flags to the two bits of the value: bit 0 is axis 1, bit 1 is
axis 2. -/
theorem limit_status_decode (env : AgilisPiezo.Env) (vInit : Int) (a1 a2 : Bool)
    (v : Int)
    (hp : AgilisPiezo.GetIntegerFromReturnValue env.reply AgilisPiezo.PH = some v) :
    (v = 0 → (AgilisPiezo.TellLimitStatus env vInit a1 a2).2 = (false, false)) ∧
    (v = 1 → (AgilisPiezo.TellLimitStatus env vInit a1 a2).2 = (true, false)) ∧
    (v = 2 → (AgilisPiezo.TellLimitStatus env vInit a1 a2).2 = (false, true)) ∧
    (v = 3 → (AgilisPiezo.TellLimitStatus env vInit a1 a2).2 = (true, true)) := by
  refine ⟨?_, ?_, ?_, ?_⟩ <;> intro hv <;> subst hv <;>
    simp [AgilisPiezo.TellLimitStatus, hp]

/-- C5, witness: raw value 3 decodes to both axes at limit. -/
theorem limit_status_decode_witness :
    (AgilisPiezo.TellLimitStatus ⟨true, "PH3\r\n"⟩ 0 false false).2 = (true, true) :=
  (limit_status_decode ⟨true, "PH3\r\n"⟩ 0 false false 3 (by decide)).2.2.2 rfl

/-- C6.  For a valid axis, `SetStepAmplitude` rejects any amplitude of
magnitude outside [1, 50] (zero included) before any I/O, and any
amplitude of magnitude inside [1, 50] passes the local validation and
is sent. -/
theorem step_amplitude_validation (axis : Int) (h : axis = 1 ∨ axis = 2)
    (sign : Bool) (a : Int) (env : AgilisPiezo.Env) :
    (|a| < 1 ∨ 50 < |a| →
      AgilisPiezo.SetStepAmplitude axis sign a env = ⟨false, []⟩) ∧
    (1 ≤ |a| ∧ |a| ≤ 50 →
      (AgilisPiezo.SetStepAmplitude axis sign a env).sent =
        [AgilisPiezo.SU axis ++ (if sign then "" else "-") ++ toString a ++ "\r\n"]) := by
  have hax : ¬(axis ≠ 1 ∧ axis ≠ 2) := by rcases h with h | h <;> simp [h]
  constructor
  · intro hbad
    have hc : a = 0 ∨ a < -50 ∨ 50 < a := by
      rcases abs_cases a with ⟨he, h0⟩ | ⟨he, h0⟩ <;> rw [he] at hbad <;> omega
    simp only [AgilisPiezo.SetStepAmplitude, if_neg hax, if_pos hc]
  · rintro ⟨hlo, hhi⟩
    have hc : ¬(a = 0 ∨ a < -50 ∨ 50 < a) := by
      rcases abs_cases a with ⟨he, h0⟩ | ⟨he, h0⟩ <;> rw [he] at hlo hhi <;> omega
    simp only [AgilisPiezo.SetStepAmplitude, if_neg hax, if_neg hc,
      AgilisPiezo.SendCommand]

/-- C6, witness: amplitude 51 is rejected with no frame sent. -/
theorem step_amplitude_validation_witness :
    AgilisPiezo.SetStepAmplitude 1 true 51 ⟨true, ""⟩ = ⟨false, []⟩ :=
  (step_amplitude_validation 1 (Or.inl rfl) true 51 ⟨true, ""⟩).1 (by decide)

/-- C7.  When the port opens but the expected handshake delimiter never
arrives within the timeout, `Connect` closes the port again and reports
failure, and a subsequent `Disconnect` on the resulting state is a
no-op. -/
theorem connect_handshake_failure_disconnected (s : Serial.SerialState)
    (handshake_timeout_ms : Int) :
    Serial.Connect s true handshake_timeout_ms "\r\n" Serial.ReadOutcome.timeout =
      ({ port := false }, false) ∧
    Serial.Disconnect (Serial.Connect s true handshake_timeout_ms "\r\n"
        Serial.ReadOutcome.timeout).1 =
      (Serial.Connect s true handshake_timeout_ms "\r\n" Serial.ReadOutcome.timeout).1 := by
  exact ⟨rfl, rfl⟩

/-- C8.  A timed-out `ListenUntil` reports failure and leaves the
caller's out-string untouched, for every delimiter, timeout and prior
contents. -/
theorem listen_until_timeout_no_partial (portOpen : Bool) (delimiter : String)
    (timeout_ms : Int) (readInit : String) :
    Serial.ListenUntil portOpen Serial.ReadOutcome.timeout delimiter timeout_ms readInit =
      (false, readInit) := by
  cases portOpen <;> rfl

/-- C9.  An unparseable deferred reply makes the future of
`MeasureCurrentPosition` yield 0, observationally identical to a reply
that parses to position 0, and the initiating call's boolean is exactly
the send result in both cases. -/
theorem measure_parse_failure_yields_zero (axis : Int) (h : axis = 1 ∨ axis = 2)
    (env env2 : AgilisPiezo.Env)
    (hp : AgilisPiezo.GetIntegerFromReturnValue env.reply (AgilisPiezo.MA axis) = none)
    (hp2 : AgilisPiezo.GetIntegerFromReturnValue env2.reply (AgilisPiezo.MA axis) = some 0)
    (hs : env.sendOk = env2.sendOk) :
    AgilisPiezo.MeasureCurrentPosition axis env = AgilisPiezo.MeasureCurrentPosition axis env2 ∧
    (AgilisPiezo.MeasureCurrentPosition axis env).2 = some 0 ∧
    (AgilisPiezo.MeasureCurrentPosition axis env).1.ret = env.sendOk := by
  have hax : ¬(axis ≠ 1 ∧ axis ≠ 2) := by rcases h with h | h <;> simp [h]
  refine ⟨?_, ?_, ?_⟩ <;>
    simp [AgilisPiezo.MeasureCurrentPosition, if_neg hax, AgilisPiezo.SendCommand,
      hp, hp2, hs]

/-- C9, witness: an empty reply and a reply echoing `1MA0` give
indistinguishable results. -/
theorem measure_parse_failure_yields_zero_witness :
    AgilisPiezo.MeasureCurrentPosition 1 ⟨true, ""⟩ =
      AgilisPiezo.MeasureCurrentPosition 1 ⟨true, "1MA0\r\n"⟩ :=
  (measure_parse_failure_yields_zero 1 (Or.inl rfl) ⟨true, ""⟩ ⟨true, "1MA0\r\n"⟩
    (by decide) (by decide) rfl).1

/-- C10.  Evaluation at the failing input: an empty reply does not
parse, so the `switch` in `TellLimitStatus` runs on the uninitialized
local `v`; when that indeterminate value is 3 both out-parameters are
overwritten to `true` even though parsing failed (second conjunct),
while an indeterminate value outside 0–3 leaves them untouched (third
conjunct). -/
theorem tell_limit_status_uninitialized_switch :
    AgilisPiezo.GetIntegerFromReturnValue "" AgilisPiezo.PH = none ∧
    AgilisPiezo.TellLimitStatus ⟨true, ""⟩ 3 false false =
      ({ ret := true, sent := ["PH\r\n"] }, true, true) ∧
    AgilisPiezo.TellLimitStatus ⟨true, ""⟩ 7 false false =
      ({ ret := true, sent := ["PH\r\n"] }, false, false) := by
  decide
